import Mathlib

/-!
Verification of the Incidence_BACK FastAPI backend (src/app/main.py,
src/app/models.py, src/app/db.py) against its specification.

The backend is a thin orchestration layer: `/analyze` sends a request text to
an LLM, parses the returned JSON with per-field defaults, persists a `Task`
row, and returns an `AnalyzeOut`; `/incidencias/id/chat` replays up to the
last five chat turns plus a system prompt and persists both sides of the
exchange.

Embedding choices:
- The upstream LLM call is opaque.  For `analyze`, the model output is given
  as the result of `json.loads` on the returned text: `none` models a string
  that is not valid JSON (`json.JSONDecodeError`), `some j` models any valid
  JSON value `j`.  For chat, the LLM is a function from the sent message list
  to `Option String`, `none` modelling a raised transport error.
- Python's dynamic typing is modelled by `JValue`; exceptions escaping the
  handler (caller-visible 5xx) are `PyOutcome.uncaught`, a deliberate
  `HTTPException` is `PyOutcome.httpError`.
- The sqlite database is a `DbState`: lists of rows plus the next
  autoincrement id; timestamps are modelled by list (insertion) order.
- Python's `",".join` / `.split(",")` are modelled over character lists
  (`joinComma` / `splitComma`), matching Python's semantics including
  `"".split(",") == [""]`.
-/

namespace Incidence

/-- `Sentiment(str, Enum)` from src/app/models.py. -/
inductive Sentiment where
  | positive
  | negative
  | neutral
deriving DecidableEq

/-- The `.value` string of a `Sentiment` member. -/
def Sentiment.value : Sentiment → String
  | .positive => "positive"
  | .negative => "negative"
  | .neutral => "neutral"

/-- `[s.value for s in Sentiment]`. -/
def sentimentValues : List String := ["positive", "negative", "neutral"]

/-- The `Sentiment(s)` enum constructor; `none` models `ValueError`. -/
def Sentiment.ofValue (s : String) : Option Sentiment :=
  if s = "positive" then some .positive
  else if s = "negative" then some .negative
  else if s = "neutral" then some .neutral
  else none

/-- `Urgency(str, Enum)` from src/app/models.py. -/
inductive Urgency where
  | low
  | medium
  | high
deriving DecidableEq

/-- The `.value` string of an `Urgency` member. -/
def Urgency.value : Urgency → String
  | .low => "low"
  | .medium => "medium"
  | .high => "high"

/-- `[u.value for u in Urgency]`. -/
def urgencyValues : List String := ["low", "medium", "high"]

/-- The `Urgency(s)` enum constructor; `none` models `ValueError`. -/
def Urgency.ofValue (s : String) : Option Urgency :=
  if s = "low" then some .low
  else if s = "medium" then some .medium
  else if s = "high" then some .high
  else none

/-- A JSON value as produced by `json.loads` (numbers restricted to the
integers, which suffices for every behaviour the backend distinguishes). -/
inductive JValue where
  | null
  | bool (b : Bool)
  | num (n : Int)
  | str (s : String)
  | arr (elems : List JValue)
  | obj (fields : List (String × JValue))

/-- Whether a dynamic value is a Python `str`. -/
def JValue.isStr : JValue → Bool
  | .str _ => true
  | _ => false

/-- Python `dict.get(key, default)`; only reachable when the parsed value is
a dict, whose keys (from JSON) are unique strings. -/
def jget (fields : List (String × JValue)) (key : String) (default : JValue) : JValue :=
  match fields.find? (fun p => p.1 == key) with
  | some p => p.2
  | none => default

/-- `sentiment_enum = Sentiment(x) if x in [s.value for s in Sentiment] else Sentiment.neutral`
(main.py line 89).  A JSON value equals one of the member strings only when it
is that `str`; the guarded constructor cannot raise, and any other value falls
back to `neutral`. -/
def coerceSentiment : JValue → Sentiment
  | .str s => (Sentiment.ofValue s).getD .neutral
  | _ => .neutral

/-- `urgency_enum = Urgency(x) if x in [u.value for u in Urgency] else Urgency.low`
(main.py line 90). -/
def coerceUrgency : JValue → Urgency
  | .str s => (Urgency.ofValue s).getD .low
  | _ => .low

/-- Extracts a Python `list[str]`; `none` if some element is not a `str`. -/
def strList? : List JValue → Option (List String)
  | [] => some []
  | JValue.str s :: rest => (strList? rest).map (fun l => s :: l)
  | _ => none

/-- Python `",".join(l)` for a list of strings, over character lists. -/
def joinComma (l : List String) : String :=
  String.mk (List.intercalate [','] (l.map String.data))

/-- Python `s.split(",")`, over character lists.  As in Python,
`splitComma "" = [""]`. -/
def splitComma (s : String) : List String :=
  (s.data.splitOn ',').map String.mk

/-- Python `",".join(x)` on a dynamic value (main.py line 97): joins a list of
strings, joins the characters of a string, joins the keys of a dict (JSON keys
are always strings); any other argument raises `TypeError`, which the handler
does not catch (`none`). -/
def pyJoinComma : JValue → Option String
  | .str s => some (joinComma (s.data.map (fun c => String.mk [c])))
  | .arr xs => (strList? xs).map joinComma
  | .obj fields => some (joinComma (fields.map (fun p => p.1)))
  | _ => none

/-- Whether `db.commit()` succeeds for this `suggested_response` value on a
`String, nullable=False` column: `None` violates the NOT NULL constraint and a
list or dict cannot be bound as a sqlite parameter; both escape the handler's
`except (json.JSONDecodeError, ValueError)` clause.  Strings, ints, floats and
bools bind fine. -/
def sqlBindCheck : JValue → Bool
  | .null => false
  | .arr _ => false
  | .obj _ => false
  | _ => true

/-- A row of the `tasks` table (src/app/db.py).  `suggested_response` keeps
the dynamic value that was bound (sqlite is dynamically typed); the other
LLM-derived columns are genuine strings by construction.  `created_at` is
modelled by row order. -/
structure Task where
  id : Nat
  solicitud : String
  suggested_response : JValue
  sentiment : String
  urgency : String
  tags : String

/-- A row of the `chat_messages` table (src/app/db.py); `timestamp` is
modelled by row order. -/
structure ChatRow where
  incidencia_id : Nat
  role : String
  content : String
deriving DecidableEq

/-- The sqlite database: both tables plus the next autoincrement id for
`tasks`. -/
structure DbState where
  tasks : List Task
  chats : List ChatRow
  nextTaskId : Nat

/-- Outcome of one HTTP request handler. -/
inductive PyOutcome (α : Type) where
  | ok (a : α)
  | httpError (code : Nat) (detail : String)
  | uncaught (msg : String)

/-- Whether the handler returned normally. -/
def PyOutcome.isOk : PyOutcome α → Bool
  | .ok _ => true
  | _ => false

/-- `AnalyzeOut` from src/app/models.py. -/
structure AnalyzeOut where
  suggested_response : String
  sentiment : Sentiment
  urgency : Urgency
  tags : List String
deriving DecidableEq

/-- The fixed fallback returned by the `except` branch of `analyze`
(main.py lines 113-118). -/
def analyzeFallback : AnalyzeOut :=
  { suggested_response := "Error al procesar la respuesta del modelo."
    sentiment := .neutral
    urgency := .low
    tags := ["error_parsing"] }

/-- The `analyze` handler (main.py lines 44-118), from the point where the
LLM's text has been received: `parsed` is the result of `json.loads` on it
(`none` = not valid JSON).  Mirrors the source:
- parse failure raises `json.JSONDecodeError`, caught, fallback returned,
  nothing persisted;
- `.get` on a non-dict raises `AttributeError`, not caught;
- sentiment/urgency are coerced with per-field defaults;
- `",".join(tags)` may raise `TypeError`, not caught;
- `db.commit()` may raise on an unbindable or null `suggested_response`, not
  caught; otherwise the row is persisted;
- building `AnalyzeOut` with a non-`str` `suggested_response` raises pydantic
  `ValidationError` (a `ValueError`), caught, fallback returned — but the row
  is already committed. -/
def analyze (solicitud : String) (parsed : Option JValue) (st : DbState) :
    PyOutcome AnalyzeOut × DbState :=
  match parsed with
  | none => (PyOutcome.ok analyzeFallback, st)
  | some (JValue.obj fields) =>
    let sentiment_enum := coerceSentiment (jget fields "sentiment" (JValue.str "neutral"))
    let urgency_enum := coerceUrgency (jget fields "urgency" (JValue.str "low"))
    let sr := jget fields "suggested_response"
      (JValue.str "No se pudo generar una respuesta sugerida.")
    match pyJoinComma (jget fields "tags" (JValue.arr [JValue.str "general"])) with
    | none => (PyOutcome.uncaught "TypeError: sequence item is not str", st)
    | some tagsStr =>
      if sqlBindCheck sr then
        let task : Task :=
          { id := st.nextTaskId, solicitud := solicitud, suggested_response := sr
            sentiment := sentiment_enum.value, urgency := urgency_enum.value
            tags := tagsStr }
        let st2 : DbState :=
          { st with tasks := st.tasks ++ [task], nextTaskId := st.nextTaskId + 1 }
        match sr with
        | JValue.str s =>
          (PyOutcome.ok
            { suggested_response := s, sentiment := sentiment_enum
              urgency := urgency_enum, tags := splitComma tagsStr }, st2)
        | _ => (PyOutcome.ok analyzeFallback, st2)
      else (PyOutcome.uncaught "sqlalchemy commit error on suggested_response", st)
  | some _ => (PyOutcome.uncaught "AttributeError: no attribute get", st)

/-- Exactly when `analyze` completes without a caller-visible error: the text
is invalid JSON, or it parses to a dict whose `tags` value (or its default)
is comma-joinable and whose `suggested_response` value (or its default) can be
committed to the NOT NULL string column. -/
def analyzeNoRaise (parsed : Option JValue) : Bool :=
  match parsed with
  | none => true
  | some (JValue.obj fields) =>
    (pyJoinComma (jget fields "tags" (JValue.arr [JValue.str "general"]))).isSome
      && sqlBindCheck (jget fields "suggested_response"
          (JValue.str "No se pudo generar una respuesta sugerida."))
  | some _ => false

/-- One element of the `/tasks` listing (main.py lines 30-41): the stored row
with `tags` split back into a list. -/
structure TaskView where
  id : Nat
  solicitud : String
  suggested_response : JValue
  sentiment : String
  urgency : String
  tags : List String

/-- The `get_tasks` handler (main.py lines 27-41). -/
def get_tasks (st : DbState) : List TaskView :=
  st.tasks.map (fun t =>
    { id := t.id, solicitud := t.solicitud, suggested_response := t.suggested_response
      sentiment := t.sentiment, urgency := t.urgency, tags := splitComma t.tags })

/-- Pydantic validation of the `/analyze` request body (src/app/models.py
`AnalyzeIn`): the `solicitud` field is required and must be a string (no
minimum length is declared, so the empty string is accepted); anything else is
a 422 validation error.  The argument is the JSON value of the `solicitud`
key, `none` when absent. -/
def AnalyzeIn_validate : Option JValue → Option String
  | some (JValue.str s) => some s
  | _ => none

/-- The `/analyze` endpoint including body validation: validation runs before
the handler, so a rejected body causes no LLM call and no state change. -/
def analyzeEndpoint (body : Option JValue) (parsed : Option JValue) (st : DbState) :
    PyOutcome AnalyzeOut × DbState :=
  match AnalyzeIn_validate body with
  | none => (PyOutcome.httpError 422 "validation error", st)
  | some sol => analyze sol parsed st

/-- Python `str(v)` as used by the chat f-string on stored column values.
Stored `suggested_response` values are always scalars (`sqlBindCheck` rejects
composites and null before commit), so the composite renderings below are
unreachable on reachable states. -/
def pyStr : JValue → String
  | .str s => s
  | .num n => toString n
  | .bool true => "True"
  | .bool false => "False"
  | .null => "None"
  | .arr _ => "list"
  | .obj _ => "dict"

/-- A chat message as sent to the LLM or supplied in the request
(`ChatMessage` in src/app/models.py). -/
structure ChatTurn where
  role : String
  content : String
deriving DecidableEq

/-- `ChatRequest` from src/app/models.py. -/
structure ChatRequest where
  messages : List ChatTurn
  user_message : String

/-- The chat `system_prompt` f-string (main.py lines 129-139). -/
def chatSystemPrompt (t : Task) : String :=
  "\n    Eres un asistente experto en incidencias. El usuario consulta sobre la siguiente incidencia:\n    ---\n    Solicitud: "
    ++ t.solicitud
    ++ "\n    Respuesta sugerida: " ++ pyStr t.suggested_response
    ++ "\n    Sentimiento: " ++ t.sentiment
    ++ "\n    Urgencia: " ++ t.urgency
    ++ "\n    Tags: " ++ t.tags
    ++ "\n    ---\n    Responde de forma clara y útil a las dudas del usuario sobre esta incidencia.\n    "

/-- `chat.messages[-5:] if len(chat.messages) > 5 else chat.messages`
(main.py line 142). -/
def truncatedHistory (msgs : List ChatTurn) : List ChatTurn :=
  if msgs.length > 5 then msgs.drop (msgs.length - 5) else msgs

/-- The message sequence assembled for the LLM (main.py lines 143-149):
system prompt, truncated history, new user message. -/
def buildMessages (t : Task) (chat : ChatRequest) : List ChatTurn :=
  { role := "system", content := chatSystemPrompt t }
    :: ((truncatedHistory chat.messages).map (fun m => { role := m.role, content := m.content })
      ++ [{ role := "user", content := chat.user_message }])

/-- The `chat_incidencia` handler (main.py lines 121-177).  `llm` maps the
sent message list to the reply text; `none` models a raised transport error,
which the handler does not catch.  The user's message is committed before the
LLM call, the assistant's reply after it. -/
def chat_incidencia (id : Nat) (chat : ChatRequest)
    (llm : List ChatTurn → Option String) (st : DbState) :
    PyOutcome String × DbState :=
  match st.tasks.find? (fun t => t.id == id) with
  | none => (PyOutcome.httpError 404 "Incidencia no encontrada", st)
  | some task =>
    let st1 : DbState :=
      { st with chats := st.chats ++ [{ incidencia_id := id, role := "user", content := chat.user_message }] }
    match llm (buildMessages task chat) with
    | none => (PyOutcome.uncaught "llm call failed", st1)
    | some answer =>
      (PyOutcome.ok answer,
        { st1 with chats := st1.chats ++ [{ incidencia_id := id, role := "assistant", content := answer }] })

/-- The `get_chat_incidencia` handler (main.py lines 179-186): messages of one
incident, in timestamp (= insertion) order. -/
def get_chat_incidencia (id : Nat) (st : DbState) : List ChatRow :=
  st.chats.filter (fun m => m.incidencia_id == id)

/-! ### Concrete fixtures used by witnesses and counterexamples -/

/-- A fresh, empty database. -/
def db0 : DbState := { tasks := [], chats := [], nextTaskId := 1 }

/-- A stored incident row. -/
def t0 : Task :=
  { id := 1, solicitud := "no hay agua", suggested_response := JValue.str "Lo revisamos."
    sentiment := "neutral", urgency := "low", tags := "general" }

/-- A database holding exactly `t0`. -/
def db1 : DbState := { tasks := [t0], chats := [], nextTaskId := 2 }

/-- A chat request with empty history. -/
def chReq0 : ChatRequest := { messages := [], user_message := "hola" }

/-- An LLM stub that always raises. -/
def llmNone : List ChatTurn → Option String := fun _ => none

/-- An LLM stub that always answers `"ok"`. -/
def llmOk : List ChatTurn → Option String := fun _ => some "ok"

/-- A JSON object carrying only an unrecognized sentiment. -/
def jAngry : JValue := JValue.obj [("sentiment", JValue.str "angry")]

/-! ### Helper lemmas -/

theorem sentiment_value_mem (s : Sentiment) : s.value ∈ sentimentValues := by
  cases s <;> simp [Sentiment.value, sentimentValues]

theorem urgency_value_mem (u : Urgency) : u.value ∈ urgencyValues := by
  cases u <;> simp [Urgency.value, urgencyValues]

/-- Every task in the post-state of `analyze` is either a pre-existing task or
a freshly inserted row whose sentiment and urgency columns are `.value`s of
the closed enumerations. -/
theorem analyze_tasks_shape (sol : String) (p : Option JValue) (st : DbState) :
    (analyze sol p st).2.tasks = st.tasks ∨
      ∃ (se : Sentiment) (ue : Urgency) (sr : JValue) (tagsStr : String),
        (analyze sol p st).2.tasks = st.tasks ++
          [{ id := st.nextTaskId, solicitud := sol, suggested_response := sr
             sentiment := se.value, urgency := ue.value, tags := tagsStr }] := by
  unfold analyze
  rcases p with _ | j
  · exact Or.inl rfl
  rcases j with _ | b | n | s | xs | fields
  · exact Or.inl rfl
  · exact Or.inl rfl
  · exact Or.inl rfl
  · exact Or.inl rfl
  · exact Or.inl rfl
  · dsimp only
    rcases h : pyJoinComma (jget fields "tags" (JValue.arr [JValue.str "general"])) with _ | tagsStr
    · exact Or.inl rfl
    dsimp only
    by_cases hb : sqlBindCheck (jget fields "suggested_response"
        (JValue.str "No se pudo generar una respuesta sugerida.")) = true
    · rw [if_pos hb]
      rcases hsr : jget fields "suggested_response"
          (JValue.str "No se pudo generar una respuesta sugerida.") with _ | _ | _ | s | _ | _ <;>
        exact Or.inr ⟨_, _, _, _, rfl⟩
    · rw [if_neg hb]
      exact Or.inl rfl

/-! ### Claim theorems -/

/-- C1: for every request text and every upstream LLM output, any
`AnalyzeOut` returned by `analyze` has a sentiment in
{positive, negative, neutral} and an urgency in {low, medium, high}; any
persisted incident row stores such values in its sentiment and urgency
columns; and a sentiment or urgency value outside its closed enumeration
(an unrecognized string, or a non-string) is replaced by `neutral` resp.
`low`. -/
theorem analyze_enums_closed (sol : String) (p : Option JValue) (st : DbState) :
    (∀ r : AnalyzeOut, (analyze sol p st).1 = PyOutcome.ok r →
      r.sentiment.value ∈ sentimentValues ∧ r.urgency.value ∈ urgencyValues) ∧
    (∀ t : Task, t ∈ (analyze sol p st).2.tasks →
      t ∈ st.tasks ∨ (t.sentiment ∈ sentimentValues ∧ t.urgency ∈ urgencyValues)) ∧
    (∀ s : String, s ∉ sentimentValues → coerceSentiment (JValue.str s) = Sentiment.neutral) ∧
    (∀ v : JValue, v.isStr = false → coerceSentiment v = Sentiment.neutral) ∧
    (∀ s : String, s ∉ urgencyValues → coerceUrgency (JValue.str s) = Urgency.low) ∧
    (∀ v : JValue, v.isStr = false → coerceUrgency v = Urgency.low) := by
  refine ⟨?_, ?_, ?_, ?_, ?_, ?_⟩
  · intro r _
    exact ⟨sentiment_value_mem r.sentiment, urgency_value_mem r.urgency⟩
  · intro t ht
    rcases analyze_tasks_shape sol p st with h | ⟨se, ue, sr, tagsStr, h⟩
    · exact Or.inl (h ▸ ht)
    · rw [h, List.mem_append, List.mem_singleton] at ht
      rcases ht with ht | ht
      · exact Or.inl ht
      · subst ht
        exact Or.inr ⟨sentiment_value_mem se, urgency_value_mem ue⟩
  · intro s hs
    simp only [sentimentValues, List.mem_cons, List.not_mem_nil, or_false, not_or] at hs
    obtain ⟨h1, h2, h3⟩ := hs
    simp [coerceSentiment, Sentiment.ofValue, h1, h2, h3]
  · intro v hv
    cases v <;> simp_all [coerceSentiment, JValue.isStr]
  · intro s hs
    simp only [urgencyValues, List.mem_cons, List.not_mem_nil, or_false, not_or] at hs
    obtain ⟨h1, h2, h3⟩ := hs
    simp [coerceUrgency, Urgency.ofValue, h1, h2, h3]
  · intro v hv
    cases v <;> simp_all [coerceUrgency, JValue.isStr]

/-- Witness for C1 at the concrete input `jAngry` on an empty database. -/
theorem analyze_enums_closed_witness :
    (({ suggested_response := "No se pudo generar una respuesta sugerida."
        sentiment := Sentiment.neutral, urgency := Urgency.low
        tags := ["general"] } : AnalyzeOut).sentiment.value ∈ sentimentValues ∧
      ({ suggested_response := "No se pudo generar una respuesta sugerida."
         sentiment := Sentiment.neutral, urgency := Urgency.low
         tags := ["general"] } : AnalyzeOut).urgency.value ∈ urgencyValues) ∧
    (({ id := 1, solicitud := "hola"
        suggested_response := JValue.str "No se pudo generar una respuesta sugerida."
        sentiment := "neutral", urgency := "low", tags := "general" } : Task) ∈ db0.tasks ∨
      ("neutral" ∈ sentimentValues ∧ "low" ∈ urgencyValues)) ∧
    coerceSentiment (JValue.str "angry") = Sentiment.neutral ∧
    coerceSentiment (JValue.num 3) = Sentiment.neutral ∧
    coerceUrgency (JValue.str "angry") = Urgency.low ∧
    coerceUrgency (JValue.num 3) = Urgency.low := by
  obtain ⟨h1, h2, h3, h4, h5, h6⟩ := analyze_enums_closed "hola" (some jAngry) db0
  refine ⟨h1 _ rfl, ?_, h3 "angry" (by decide), h4 (JValue.num 3) rfl,
    h5 "angry" (by decide), h6 (JValue.num 3) rfl⟩
  exact h2 _ (List.mem_singleton.mpr rfl)

/-- C2 counterexample: on invalid JSON the call does succeed, but the
returned payload's `suggested_response` is the code's Spanish message
`"Error al procesar la respuesta del modelo."`, not the
`"Error processing model response."` stated by the claim. -/
theorem analyze_parse_error_payload_cex :
    (analyze "fuga de agua" none db0).1 = PyOutcome.ok analyzeFallback ∧
    analyzeFallback.suggested_response ≠ "Error processing model response." :=
  ⟨rfl, by decide⟩

/-- C2 (amended): if the upstream text is not valid JSON, `analyze` returns
exactly the fixed payload with `suggested_response =
"Error al procesar la respuesta del modelo."`, sentiment `neutral`, urgency
`low`, tags `["error_parsing"]`, completes without any caller-visible error,
and leaves the database unchanged. -/
theorem analyze_parse_error_payload (sol : String) (st : DbState) :
    analyze sol none st =
      (PyOutcome.ok { suggested_response := "Error al procesar la respuesta del modelo."
                      sentiment := Sentiment.neutral, urgency := Urgency.low
                      tags := ["error_parsing"] }, st) := rfl

/-- C3 counterexample: the upstream text `"[]"` is valid JSON, yet `analyze`
raises a caller-visible error (`.get` on a list raises `AttributeError`,
which the `except (json.JSONDecodeError, ValueError)` clause does not
catch). -/
theorem analyze_never_fails_cex :
    ((analyze "hola" (some (JValue.arr [])) db0).1).isOk = false ∧
    (analyze "hola" (some (JValue.arr [])) db0).1 =
      PyOutcome.uncaught "AttributeError: no attribute get" :=
  ⟨rfl, rfl⟩

/-- C3 (amended): `analyze` completes without a caller-visible error exactly
when the upstream text is invalid JSON, or parses to a JSON object whose
`tags` value (or its default) is comma-joinable and whose
`suggested_response` value (or its default) is storable in the NOT NULL
string column; every other upstream output escapes the except clause and is
a caller-visible failure. -/
theorem analyze_visible_error_iff (sol : String) (p : Option JValue) (st : DbState) :
    ((analyze sol p st).1).isOk = analyzeNoRaise p := by
  unfold analyze analyzeNoRaise
  rcases p with _ | j
  · rfl
  rcases j with _ | b | n | s | xs | fields
  · rfl
  · rfl
  · rfl
  · rfl
  · rfl
  · dsimp only
    rcases h : pyJoinComma (jget fields "tags" (JValue.arr [JValue.str "general"])) with _ | tagsStr
    · rfl
    dsimp only
    by_cases hb : sqlBindCheck (jget fields "suggested_response"
        (JValue.str "No se pudo generar una respuesta sugerida.")) = true
    · rw [if_pos hb, hb]
      rcases jget fields "suggested_response"
          (JValue.str "No se pudo generar una respuesta sugerida.") with _ | _ | _ | s | _ | _ <;> rfl
    · rw [if_neg hb]
      simp only [Bool.not_eq_true] at hb
      simp [PyOutcome.isOk, hb]

/-- C4: `chat_incidencia` on an id with no stored incident returns the 404
"Incidencia no encontrada" failure and leaves the database (in particular
`chat_messages`) unchanged. -/
theorem chat_not_found (id : Nat) (ch : ChatRequest)
    (llm : List ChatTurn → Option String) (st : DbState)
    (h : st.tasks.find? (fun t => t.id == id) = none) :
    chat_incidencia id ch llm st = (PyOutcome.httpError 404 "Incidencia no encontrada", st) := by
  unfold chat_incidencia
  rw [h]

/-- Witness for C4 on the empty database. -/
theorem chat_not_found_witness :
    chat_incidencia 7 chReq0 llmNone db0 =
      (PyOutcome.httpError 404 "Incidencia no encontrada", db0) :=
  chat_not_found 7 chReq0 llmNone db0 rfl

/-- C5: the message sequence sent to the LLM is exactly the system prompt,
then the last `min 5 (length)` supplied turns in their original order (the
truncated history is a suffix of the supplied history), then the new user
message; and whenever the incident exists, `chat_incidencia` invokes the LLM
on exactly that sequence. -/
theorem chat_context_window (t : Task) (ch : ChatRequest) :
    buildMessages t ch =
      { role := "system", content := chatSystemPrompt t }
        :: ((ch.messages.drop (ch.messages.length - 5)).map
              (fun m => { role := m.role, content := m.content })
          ++ [{ role := "user", content := ch.user_message }]) ∧
    (truncatedHistory ch.messages).length = min 5 ch.messages.length ∧
    ch.messages.take (ch.messages.length - 5) ++ truncatedHistory ch.messages = ch.messages ∧
    ∀ (id : Nat) (llm : List ChatTurn → Option String) (st : DbState),
      st.tasks.find? (fun tk => tk.id == id) = some t →
      chat_incidencia id ch llm st =
        (let st1 : DbState :=
          { st with chats := st.chats ++
              [{ incidencia_id := id, role := "user", content := ch.user_message }] }
         match llm (buildMessages t ch) with
         | none => (PyOutcome.uncaught "llm call failed", st1)
         | some answer =>
           (PyOutcome.ok answer,
             { st1 with chats := st1.chats ++
                 [{ incidencia_id := id, role := "assistant", content := answer }] })) := by
  have hdrop : truncatedHistory ch.messages = ch.messages.drop (ch.messages.length - 5) := by
    unfold truncatedHistory
    split
    · rfl
    · next hlen =>
      rw [Nat.sub_eq_zero_of_le (Nat.le_of_not_lt hlen), List.drop_zero]
  refine ⟨?_, ?_, ?_, ?_⟩
  · unfold buildMessages
    rw [hdrop]
  · rw [hdrop, List.length_drop]
    omega
  · rw [hdrop]
    exact List.take_append_drop _ _
  · intro id llm st h
    unfold chat_incidencia
    rw [h]

/-- Witness for C5 at a stored incident with an empty history. -/
theorem chat_context_window_witness :
    chat_incidencia 1 chReq0 llmOk db1 =
      (let st1 : DbState :=
        { db1 with chats := db1.chats ++
            [{ incidencia_id := 1, role := "user", content := chReq0.user_message }] }
       match llmOk (buildMessages t0 chReq0) with
       | none => (PyOutcome.uncaught "llm call failed", st1)
       | some answer =>
         (PyOutcome.ok answer,
           { st1 with chats := st1.chats ++
               [{ incidencia_id := 1, role := "assistant", content := answer }] })) :=
  (chat_context_window t0 chReq0).2.2.2 1 llmOk db1 rfl

/-- C9: if the incident exists and the LLM call raises, the call fails with
a caller-visible error, but the user's message is already committed and
remains the only new row: the transcript is left with an unanswered user
turn and no assistant reply is persisted. -/
theorem chat_llm_failure_keeps_user_msg (id : Nat) (ch : ChatRequest)
    (llm : List ChatTurn → Option String) (st : DbState) (t : Task)
    (hfind : st.tasks.find? (fun tk => tk.id == id) = some t)
    (hllm : llm (buildMessages t ch) = none) :
    chat_incidencia id ch llm st =
      (PyOutcome.uncaught "llm call failed",
        { st with chats := st.chats ++
            [{ incidencia_id := id, role := "user", content := ch.user_message }] }) := by
  unfold chat_incidencia
  rw [hfind]
  dsimp only
  rw [hllm]

/-- Witness for C9 at a stored incident with an always-failing LLM. -/
theorem chat_llm_failure_keeps_user_msg_witness :
    chat_incidencia 1 chReq0 llmNone db1 =
      (PyOutcome.uncaught "llm call failed",
        { db1 with chats := db1.chats ++
            [{ incidencia_id := 1, role := "user", content := chReq0.user_message }] }) :=
  chat_llm_failure_keeps_user_msg 1 chReq0 llmNone db1 t0 rfl rfl

/-- `strList?` recognizes a list of strings. -/
theorem strList?_map_str (l : List String) : strList? (l.map JValue.str) = some l := by
  induction l with
  | nil => rfl
  | cons s rest ih => simp [strList?, ih]

/-- Splitting on a comma undoes joining with a comma, provided the list is
nonempty and no element contains a comma (the exact domain on which the
backend's tags encoding is lossless). -/
theorem splitComma_joinComma (l : List String) (hne : l ≠ [])
    (hc : ∀ s ∈ l, ',' ∉ s.data) : splitComma (joinComma l) = l := by
  unfold splitComma joinComma
  have hx : ∀ d ∈ l.map String.data, ',' ∉ d := by
    intro d hd
    obtain ⟨s, hs, rfl⟩ := List.mem_map.mp hd
    exact hc s hs
  have hls : l.map String.data ≠ [] := by
    simpa using hne
  have hdata : (String.mk (List.intercalate [','] (l.map String.data))).data
      = List.intercalate [','] (l.map String.data) := rfl
  rw [hdata, List.splitOn_intercalate (l.map String.data) ',' hx hls, List.map_map]
  rw [show (String.mk ∘ String.data) = @id String from rfl, List.map_id]

/-- The LLM payload of C6: valid fields with tags `["a","b","c"]`. -/
def jTagsABC : JValue := JValue.obj
  [("suggested_response", JValue.str "ok"), ("sentiment", JValue.str "positive"),
   ("urgency", JValue.str "high"), ("tags", JValue.arr [JValue.str "a", JValue.str "b", JValue.str "c"])]

/-- C6: persisting tags `["a","b","c"]` through `analyze` stores the
comma-joined string `"a,b,c"`, and reading back through the `/tasks` listing
(`get_tasks`) reconstructs the same ordered list `["a","b","c"]`; the
response carries the same list. -/
theorem tags_roundtrip_abc (sol : String) (st : DbState) :
    (analyze sol (some jTagsABC) st).1 =
      PyOutcome.ok { suggested_response := "ok", sentiment := Sentiment.positive
                     urgency := Urgency.high, tags := ["a", "b", "c"] } ∧
    (analyze sol (some jTagsABC) st).2.tasks = st.tasks ++
      [{ id := st.nextTaskId, solicitud := sol, suggested_response := JValue.str "ok"
         sentiment := "positive", urgency := "high", tags := "a,b,c" }] ∧
    get_tasks (analyze sol (some jTagsABC) st).2 = get_tasks st ++
      [{ id := st.nextTaskId, solicitud := sol, suggested_response := JValue.str "ok"
         sentiment := "positive", urgency := "high", tags := ["a", "b", "c"] }] := by
  refine ⟨rfl, rfl, ?_⟩
  have h2 : (analyze sol (some jTagsABC) st).2 =
      { st with tasks := st.tasks ++
                  [{ id := st.nextTaskId, solicitud := sol, suggested_response := JValue.str "ok"
                     sentiment := "positive", urgency := "high", tags := "a,b,c" }],
                nextTaskId := st.nextTaskId + 1 } := rfl
  rw [h2]
  unfold get_tasks
  rw [List.map_append]
  rfl

/-- The LLM payload of C10: a valid JSON object whose tags field is the
empty list. -/
def jTagsEmpty : JValue := JValue.obj [("tags", JValue.arr [])]

/-- C10: when the LLM returns `tags: []`, joining yields the empty string,
so the stored tags column is `""` and both the response and the `/tasks`
read-back contain `[""]` (one empty string), not the empty list. -/
theorem tags_empty_becomes_singleton (sol : String) (st : DbState) :
    (analyze sol (some jTagsEmpty) st).1 =
      PyOutcome.ok { suggested_response := "No se pudo generar una respuesta sugerida."
                     sentiment := Sentiment.neutral, urgency := Urgency.low
                     tags := [""] } ∧
    (analyze sol (some jTagsEmpty) st).2.tasks = st.tasks ++
      [{ id := st.nextTaskId, solicitud := sol
         suggested_response := JValue.str "No se pudo generar una respuesta sugerida."
         sentiment := "neutral", urgency := "low", tags := "" }] ∧
    get_tasks (analyze sol (some jTagsEmpty) st).2 = get_tasks st ++
      [{ id := st.nextTaskId, solicitud := sol
         suggested_response := JValue.str "No se pudo generar una respuesta sugerida."
         sentiment := "neutral", urgency := "low", tags := [""] }] := by
  refine ⟨rfl, rfl, ?_⟩
  have h2 : (analyze sol (some jTagsEmpty) st).2 =
      { st with tasks := st.tasks ++
                  [{ id := st.nextTaskId, solicitud := sol
                     suggested_response := JValue.str "No se pudo generar una respuesta sugerida."
                     sentiment := "neutral", urgency := "low", tags := "" }],
                nextTaskId := st.nextTaskId + 1 } := rfl
  rw [h2]
  unfold get_tasks
  rw [List.map_append]
  rfl

/-- C7 counterexample: with `sentiment: "angry"` and the valid tags list
`["a,b"]`, the sentiment is replaced by neutral, but the tags are not
preserved unchanged: the comma-joined storage returns `["a","b"]`. -/
theorem angry_sentiment_preserves_cex :
    (analyze "x" (some (JValue.obj
        [("suggested_response", JValue.str "ok"), ("sentiment", JValue.str "angry"),
         ("urgency", JValue.str "high"), ("tags", JValue.arr [JValue.str "a,b"])])) db0).1 =
      PyOutcome.ok { suggested_response := "ok", sentiment := Sentiment.neutral
                     urgency := Urgency.high, tags := ["a", "b"] } ∧
    (["a", "b"] : List String) ≠ ["a,b"] :=
  ⟨rfl, by decide⟩

/-- C7 (amended): on a valid JSON payload with `sentiment: "angry"`, a valid
urgency, a string `suggested_response` and a nonempty list-of-strings tags
field none of which contains a comma, the stored and returned sentiment is
`neutral` while `suggested_response`, urgency and tags are preserved
unchanged (a tag containing a comma is split apart on read-back, and an
empty tags list comes back as `[""]`, so those are excluded). -/
theorem angry_sentiment_neutral_rest_preserved (sol s u : String) (tags : List String)
    (st : DbState) (hu : u ∈ urgencyValues) (hne : tags ≠ [])
    (hc : ∀ tg ∈ tags, ',' ∉ tg.data) :
    analyze sol (some (JValue.obj
        [("suggested_response", JValue.str s), ("sentiment", JValue.str "angry"),
         ("urgency", JValue.str u), ("tags", JValue.arr (tags.map JValue.str))])) st =
      (PyOutcome.ok { suggested_response := s, sentiment := Sentiment.neutral
                      urgency := coerceUrgency (JValue.str u), tags := tags },
       { st with tasks := st.tasks ++
                   [{ id := st.nextTaskId, solicitud := sol, suggested_response := JValue.str s
                      sentiment := "neutral", urgency := u, tags := joinComma tags }],
                 nextTaskId := st.nextTaskId + 1 }) ∧
    (coerceUrgency (JValue.str u)).value = u ∧
    splitComma (joinComma tags) = tags := by
  have hv : (coerceUrgency (JValue.str u)).value = u := by
    simp only [urgencyValues, List.mem_cons, List.not_mem_nil, or_false] at hu
    rcases hu with rfl | rfl | rfl <;> rfl
  have hsplit : splitComma (joinComma tags) = tags := splitComma_joinComma tags hne hc
  refine ⟨?_, hv, hsplit⟩
  have hjoin : pyJoinComma (jget
      [("suggested_response", JValue.str s), ("sentiment", JValue.str "angry"),
       ("urgency", JValue.str u), ("tags", JValue.arr (tags.map JValue.str))]
      "tags" (JValue.arr [JValue.str "general"])) = some (joinComma tags) := by
    show pyJoinComma (JValue.arr (tags.map JValue.str)) = some (joinComma tags)
    simp [pyJoinComma, strList?_map_str]
  have hmain : analyze sol (some (JValue.obj
      [("suggested_response", JValue.str s), ("sentiment", JValue.str "angry"),
       ("urgency", JValue.str u), ("tags", JValue.arr (tags.map JValue.str))])) st =
      (PyOutcome.ok { suggested_response := s, sentiment := Sentiment.neutral
                      urgency := coerceUrgency (JValue.str u)
                      tags := splitComma (joinComma tags) },
       { st with tasks := st.tasks ++
                   [{ id := st.nextTaskId, solicitud := sol, suggested_response := JValue.str s
                      sentiment := "neutral", urgency := (coerceUrgency (JValue.str u)).value
                      tags := joinComma tags }],
                 nextTaskId := st.nextTaskId + 1 }) := by
    unfold analyze
    dsimp only
    rw [hjoin]
    rfl
  rw [hmain, hsplit, hv]

/-- Witness for C7 at a concrete payload with two comma-free tags. -/
theorem angry_sentiment_neutral_rest_preserved_witness :
    analyze "x" (some (JValue.obj
        [("suggested_response", JValue.str "ok"), ("sentiment", JValue.str "angry"),
         ("urgency", JValue.str "high"), ("tags", JValue.arr [JValue.str "a", JValue.str "b"])])) db0 =
      (PyOutcome.ok { suggested_response := "ok", sentiment := Sentiment.neutral
                      urgency := Urgency.high, tags := ["a", "b"] },
       { db0 with tasks := [{ id := 1, solicitud := "x", suggested_response := JValue.str "ok"
                              sentiment := "neutral", urgency := "high", tags := "a,b" }],
                  nextTaskId := 2 }) ∧
    Urgency.high.value = "high" ∧
    splitComma (joinComma ["a", "b"]) = ["a", "b"] := by
  exact angry_sentiment_neutral_rest_preserved "x" "ok" "high" ["a", "b"] db0
    (by decide) (by decide) (by decide)

/-- C8 counterexample: the empty request text passes validation (no minimum
length is declared on `solicitud`), and the endpoint proceeds into the
orchestrator rather than rejecting at the boundary. -/
theorem analyze_rejects_empty_cex :
    AnalyzeIn_validate (some (JValue.str "")) = some "" ∧
    (analyzeEndpoint (some (JValue.str "")) none db0).1 = PyOutcome.ok analyzeFallback :=
  ⟨rfl, rfl⟩

/-- C8 (amended): the analyze endpoint rejects a request whose text is
missing or not a string with a 422 validation error at the boundary, with no
state change and no dependence on the LLM; a request whose text is a string
(including the empty string) passes validation and is handed to the
orchestrator unchanged. -/
theorem analyze_validation_boundary :
    (∀ (p : Option JValue) (st : DbState),
      analyzeEndpoint none p st = (PyOutcome.httpError 422 "validation error", st)) ∧
    (∀ (v : JValue) (p : Option JValue) (st : DbState), AnalyzeIn_validate (some v) = none →
      analyzeEndpoint (some v) p st = (PyOutcome.httpError 422 "validation error", st)) ∧
    (∀ (s : String) (p : Option JValue) (st : DbState),
      analyzeEndpoint (some (JValue.str s)) p st = analyze s p st) := by
  refine ⟨fun p st => rfl, ?_, fun s p st => rfl⟩
  intro v p st h
  unfold analyzeEndpoint
  rw [h]

/-- Witness for C8: a missing body and a non-string (`null`) body are both
rejected with no state change. -/
theorem analyze_validation_boundary_witness :
    analyzeEndpoint none (some jTagsABC) db0 = (PyOutcome.httpError 422 "validation error", db0) ∧
    analyzeEndpoint (some JValue.null) (some jTagsABC) db0 =
      (PyOutcome.httpError 422 "validation error", db0) :=
  ⟨analyze_validation_boundary.1 (some jTagsABC) db0,
   analyze_validation_boundary.2.1 JValue.null (some jTagsABC) db0 rfl⟩

end Incidence
